import Mathlib

/-!
Verification of the job-lifecycle, scoring and streaming subsystem of the
scrapper-agent backend.

The definitions below are a shallow embedding of the Python sources:
`src/models/lead.py`, `src/processors/scorer.py`,
`src/api/services/job_manager.py`, `src/api/routes/stream.py`,
`src/api/routes/scrape.py`.

Python floats are modelled as rationals (the arithmetic of the scoring code
only involves decimal constants), `datetime` values as integer timestamps
(seconds), Python dicts keyed by job id as association lists, and the
optional database service as an explicit oracle argument describing the
outcome of the call (absent / returned a value / raised).
-/

/-- Pythonic truthiness of an optional string (`if x:`): `None` and the
empty string are falsy. -/
def truthyStr (o : Option String) : Bool :=
  match o with
  | none => false
  | some s => !s.isEmpty

/-- Pythonic truthiness of an optional dict (`if x:`): `None` and the empty
dict are falsy. -/
def truthyDict (o : Option (List (String × String))) : Bool :=
  match o with
  | none => false
  | some l => !l.isEmpty

/-- `SocialLinks` from `src/models/lead.py`. -/
structure SocialLinks where
  linkedin : Option String := none
  facebook : Option String := none
  instagram : Option String := none
  twitter : Option String := none
  youtube : Option String := none
  tiktok : Option String := none
deriving DecidableEq, Repr

/-- `RawLead` from `src/models/lead.py` (the fields the scorer, the
deduplication logic and the resume reconstruction read). -/
structure RawLead where
  place_id : String
  name : String := ""
  phone : Option String := none
  website : Option String := none
  address : String := ""
  category : String := ""
  rating : Option ℚ := none
  review_count : Nat := 0
  price_level : Option String := none
  business_hours : Option (List (String × String)) := none
  photos_count : Nat := 0
  is_claimed : Option Bool := none
deriving DecidableEq, Repr

/-- `EnrichedLead` from `src/models/lead.py` (the fields the scorer reads;
`team_members` is a list of dicts in the source). -/
structure EnrichedLead where
  raw : RawLead
  emails : List String := []
  primary_email : Option String := none
  social_links : SocialLinks := {}
  owner_name : Option String := none
  whatsapp : Option String := none
  has_contact_form : Bool := false
  website_reachable : Bool := true
  team_members : List (List (String × String)) := []
deriving DecidableEq, Repr

/-- `LeadScore` from `src/models/lead.py`: five components, each declared
with pydantic bounds `ge=0, le=25`. -/
structure LeadScore where
  rating_score : ℚ := 0
  review_score : ℚ := 0
  completeness_score : ℚ := 0
  social_presence_score : ℚ := 0
  business_signals_score : ℚ := 0
deriving DecidableEq, Repr

/-- `LeadScore.total`: sum of the five components (out of 125) rescaled to
a 0-100 total, clamped at 100. -/
def LeadScore.total (s : LeadScore) : ℚ :=
  min ((s.rating_score + s.review_score + s.completeness_score
        + s.social_presence_score + s.business_signals_score) * 100 / 125) 100

/-- `LeadScore.tier`: hot / warm / cold partition by the total. -/
def LeadScore.tier (s : LeadScore) : String :=
  if s.total ≥ 75 then "hot"
  else if s.total ≥ 50 then "warm"
  else "cold"

/-- `ScoredLead` from `src/models/lead.py`. -/
structure ScoredLead where
  lead : EnrichedLead
  score : LeadScore
deriving DecidableEq, Repr

/-- `OutreachMessages` from `src/models/lead.py`. -/
structure OutreachMessages where
  email_subject : Option String := none
  email_body : Option String := none
  linkedin_message : Option String := none
  whatsapp_message : Option String := none
  cold_call_script : Option String := none
deriving DecidableEq, Repr

/-- `FinalLead` from `src/models/lead.py`. -/
structure FinalLead where
  scored_lead : ScoredLead
  outreach : OutreachMessages := {}
deriving DecidableEq, Repr

/-- `FinalLead.place_id` access path `lead.scored_lead.lead.raw.place_id`
used throughout `job_manager.py` and `scrape.py`. -/
def FinalLead.place_id (l : FinalLead) : String :=
  l.scored_lead.lead.raw.place_id

/-- `LeadScorer._score_rating` from `src/processors/scorer.py`:
bucket the Google rating into 0-25 points. -/
def score_rating (lead : EnrichedLead) : ℚ :=
  match lead.raw.rating with
  | none => 0
  | some rating =>
    if rating ≥ 4.5 then 25
    else if rating ≥ 4.0 then 20
    else if rating ≥ 3.5 then 15
    else if rating ≥ 3.0 then 10
    else 5

/-- `LeadScorer._score_reviews` from `src/processors/scorer.py`:
bucket the review count into 0-25 points. -/
def score_reviews (lead : EnrichedLead) : ℚ :=
  if lead.raw.review_count ≥ 100 then 25
  else if lead.raw.review_count ≥ 50 then 20
  else if lead.raw.review_count ≥ 20 then 15
  else if lead.raw.review_count ≥ 5 then 10
  else if lead.raw.review_count ≥ 1 then 5
  else 0

/-- `LeadScorer._score_completeness` from `src/processors/scorer.py`:
starting from `score = 0.0`, add 5 for a phone, 5 for a website, 8 for an
email, 7 for an owner name (each `score += k` under its condition), then
`min(score, 25.0)`. -/
def score_completeness (lead : EnrichedLead) : ℚ :=
  min ((if truthyStr lead.raw.phone then (5 : ℚ) else 0)
    + (if truthyStr lead.raw.website then (5 : ℚ) else 0)
    + (if !lead.emails.isEmpty || truthyStr lead.primary_email then (8 : ℚ) else 0)
    + (if truthyStr lead.owner_name then (7 : ℚ) else 0)) 25

/-- `LeadScorer._score_social_presence` from `src/processors/scorer.py`:
starting from `score = 0.0`, add the per-platform weight for every present
link (`score += k` under each condition), then `min(score, 25.0)`. -/
def score_social_presence (lead : EnrichedLead) : ℚ :=
  min ((if truthyStr lead.social_links.linkedin then (8 : ℚ) else 0)
    + (if truthyStr lead.social_links.instagram then (6 : ℚ) else 0)
    + (if truthyStr lead.social_links.facebook then (5 : ℚ) else 0)
    + (if truthyStr lead.social_links.twitter then (3 : ℚ) else 0)
    + (if truthyStr lead.social_links.youtube then (2 : ℚ) else 0)
    + (if truthyStr lead.social_links.tiktok then (1 : ℚ) else 0)) 25

/-- `LeadScorer._score_business_signals` from `src/processors/scorer.py`:
starting from `score = 0.0`, add the photo bucket, 3 for business hours,
2 for a price level, 5 for a claimed listing, 2 for a reachable website,
1 for a contact form, 2 for an `https` website, 5 for team members
(each `score += k` under its condition), then `min(score, 25.0)`. -/
def score_business_signals (lead : EnrichedLead) : ℚ :=
  min ((if lead.raw.photos_count ≥ 20 then (5 : ℚ)
        else if lead.raw.photos_count ≥ 10 then 3
        else if lead.raw.photos_count ≥ 1 then 1
        else 0)
    + (if truthyDict lead.raw.business_hours then (3 : ℚ) else 0)
    + (if truthyStr lead.raw.price_level then (2 : ℚ) else 0)
    + (if lead.raw.is_claimed = some true then (5 : ℚ) else 0)
    + (if lead.website_reachable then (2 : ℚ) else 0)
    + (if lead.has_contact_form then (1 : ℚ) else 0)
    + (if truthyStr lead.raw.website
          && (lead.raw.website.getD "").startsWith "https" then (2 : ℚ) else 0)
    + (if !lead.team_members.isEmpty then (5 : ℚ) else 0)) 25

/-- `LeadScorer.score` from `src/processors/scorer.py`: assemble the five
components into a `LeadScore` (the tier thresholds live in
`LeadScore.tier`). -/
def scoreLead (lead : EnrichedLead) : LeadScore :=
  { rating_score := score_rating lead
    review_score := score_reviews lead
    completeness_score := score_completeness lead
    social_presence_score := score_social_presence lead
    business_signals_score := score_business_signals lead }

/-- Score reconstruction from `_db_lead_to_scored_lead` in
`src/api/routes/scrape.py`: the stored total is reverse-normalized and
distributed evenly over the five components
(`component_score = total_score * 1.25 / 5`). -/
def db_score_reconstruct (total_score : ℚ) : LeadScore :=
  let component_score := total_score * 1.25 / 5
  { rating_score := component_score
    review_score := component_score
    completeness_score := component_score
    social_presence_score := component_score
    business_signals_score := component_score }

/-- `JobSummary` from `src/api/schemas/responses.py` (the fields the
job manager and summary-building code use). -/
structure JobSummary where
  total_leads : Nat := 0
  hot : Nat := 0
  warm : Nat := 0
  cold : Nat := 0
deriving DecidableEq, Repr

/-- One entry of a job's event buffer: the fixed event kinds
`{status, lead, lead_update, error, complete}` appended by
`JobManager.update_progress`, `add_lead`, `update_lead`, `fail_job`
and `complete_job`. -/
inductive Event where
  | status (step : String) (current total : Nat) (message : Option String)
  | lead (data : FinalLead)
  | lead_update (data : FinalLead)
  | error (message : String) (recoverable : Bool)
  | complete (summary : JobSummary)
deriving DecidableEq, Repr

/-- `Job` from `src/api/services/job_manager.py`. Timestamps are integer
seconds; `datetime.utcnow()` becomes an explicit `now` argument of each
operation. -/
structure Job where
  job_id : String
  query : String := ""
  status : String := "pending"
  created_at : Int := 0
  started_at : Option Int := none
  completed_at : Option Int := none
  user_id : String := ""
  max_results : Nat := 20
  min_score : Int := 0
  skip_enrichment : Bool := false
  skip_outreach : Bool := false
  product_context : Option String := none
  summary : Option JobSummary := none
  error : Option String := none
  leads : List FinalLead := []
  event_buffer : List Event := []
  max_buffer_size : Nat := 100
  cancel_requested : Bool := false
deriving DecidableEq, Repr

/-- `Job.add_event`: append to the buffer, then keep only the last
`max_buffer_size` entries (`self.event_buffer[-self.max_buffer_size:]`). -/
def Job.add_event (j : Job) (e : Event) : Job :=
  let buf := j.event_buffer ++ [e]
  if buf.length > j.max_buffer_size then
    { j with event_buffer := buf.drop (buf.length - j.max_buffer_size) }
  else
    { j with event_buffer := buf }

/-- `JobManager` state: `_jobs` and `_callbacks` dicts keyed by job id,
modelled as association lists (registered callbacks are abstract tokens). -/
structure JobManager where
  jobs : List (String × Job) := []
  callbacks : List (String × List Nat) := []
deriving DecidableEq, Repr

/-- `self._jobs.get(job_id)` (`JobManager.get_job`). -/
def JobManager.get_job (jm : JobManager) (job_id : String) : Option Job :=
  (jm.jobs.find? (fun p => p.1 = job_id)).map Prod.snd

/-- `self._jobs[job_id] = job` for an id already present: replace the
stored job. -/
def JobManager.set_job (jm : JobManager) (job_id : String) (job : Job) : JobManager :=
  { jm with jobs := jm.jobs.map (fun p => if p.1 = job_id then (job_id, job) else p) }

/-- `JobManager.create_job`: build a fresh pending `Job` and store it under
a fresh id (the uuid is an explicit argument). -/
def JobManager.create_job (jm : JobManager) (job_id query user_id : String)
    (max_results : Nat) (min_score : Int) (skip_enrichment skip_outreach : Bool)
    (product_context : Option String) (now : Int) : JobManager × Job :=
  let job : Job :=
    { job_id := job_id, query := query, user_id := user_id, created_at := now
      max_results := max_results, min_score := min_score
      skip_enrichment := skip_enrichment, skip_outreach := skip_outreach
      product_context := product_context }
  ({ jm with jobs := jm.jobs ++ [(job_id, job)] }, job)

/-- `JobManager.update_status`: set `job.status` to the requested value
unconditionally; set `started_at` on the first transition to `running`,
set `completed_at` on a terminal status. -/
def JobManager.update_status (jm : JobManager) (job_id status : String) (now : Int) :
    JobManager :=
  match jm.get_job job_id with
  | none => jm
  | some job =>
    let job := { job with status := status }
    let job :=
      if status = "running" ∧ job.started_at = none then
        { job with started_at := some now }
      else if status = "completed" ∨ status = "failed" ∨ status = "cancelled" then
        { job with completed_at := some now }
      else job
    jm.set_job job_id job

/-- `JobManager.complete_job`: set status `completed`, record the summary,
append a `complete` event. -/
def JobManager.complete_job (jm : JobManager) (job_id : String)
    (summary : JobSummary) (now : Int) : JobManager :=
  match jm.get_job job_id with
  | none => jm
  | some job =>
    let job := { job with status := "completed", completed_at := some now
                          summary := some summary }
    jm.set_job job_id (job.add_event (.complete summary))

/-- `JobManager.fail_job`: set status `failed`, record the error text,
append a non-recoverable `error` event. -/
def JobManager.fail_job (jm : JobManager) (job_id error : String) (now : Int) :
    JobManager :=
  match jm.get_job job_id with
  | none => jm
  | some job =>
    let job := { job with status := "failed", completed_at := some now
                          error := some error }
    jm.set_job job_id (job.add_event (.error error false))

/-- `JobManager.cancel_job`: only when the job exists with status
`pending` or `running`, set the cancellation flag, status `cancelled` and
the completion timestamp; otherwise return `false` and leave the state
unchanged. -/
def JobManager.cancel_job (jm : JobManager) (job_id : String) (now : Int) :
    JobManager × Bool :=
  match jm.get_job job_id with
  | some job =>
    if job.status = "pending" ∨ job.status = "running" then
      (jm.set_job job_id
        { job with cancel_requested := true, status := "cancelled"
                   completed_at := some now }, true)
    else (jm, false)
  | none => (jm, false)

/-- Outcome of the optional durable-store duplicate check inside
`JobManager.add_lead`: `none` models an unconfigured database (`self.db`
is `None`); `some (.error ())` models `check_lead_exists` raising;
`some (.ok r)` models it returning `r` (the colliding job id, if any). -/
def DbCheck : Type := Option (Except Unit (Option String))

/-- `JobManager.add_lead`: reject a same-job duplicate by place id
(returning the job's own id), then consult the durable-store duplicate
check — a raised exception is swallowed and treated like "no duplicate" —
and otherwise append the lead and a `lead` event. -/
def JobManager.add_lead (jm : JobManager) (job_id : String) (lead : FinalLead)
    (dbCheck : DbCheck) : JobManager × Bool × Option String :=
  match jm.get_job job_id with
  | none => (jm, false, none)
  | some job =>
    let place_id := lead.place_id
    if !place_id.isEmpty
        && job.leads.any (fun l => l.place_id = place_id) then
      (jm, false, some job_id)
    else
      match dbCheck with
      | some (Except.ok (some existing_job_id)) => (jm, false, some existing_job_id)
      | _ =>
        let job := { job with leads := job.leads ++ [lead] }
        let job := job.add_event (.lead lead)
        (jm.set_job job_id job, true, none)

/-- Whether a status string is terminal. -/
def isTerminal (status : String) : Bool :=
  status = "completed" || status = "failed" || status = "cancelled"

/-- `JobManager.can_start_job`: reject when the global count of
`pending`/`running` jobs reaches `max_concurrent_jobs`, or (when a user id
is supplied) when the user's own count reaches `max_jobs_per_user`
(default 1 in `config/settings.py`). -/
def JobManager.can_start_job (jm : JobManager) (user_id : Option String)
    (max_concurrent_jobs max_jobs_per_user : Nat) : Bool × Option String :=
  let global_running :=
    (jm.jobs.filter (fun p => p.2.status = "pending" ∨ p.2.status = "running")).length
  if global_running ≥ max_concurrent_jobs then
    (false, some s!"Server is busy. Maximum {max_concurrent_jobs} jobs can run at once. Try again later.")
  else
    match user_id with
    | none => (true, none)
    | some uid =>
      let user_running :=
        (jm.jobs.filter (fun p =>
          p.2.user_id = uid ∧ (p.2.status = "pending" ∨ p.2.status = "running"))).length
      if user_running ≥ max_jobs_per_user then
        (false, some s!"You already have {user_running} job(s) running. Wait for it to complete or cancel it.")
      else (true, none)

/-- `JobManager._cleanup_old_jobs`: compute the cutoff
`now - job_ttl_hours` (hours as seconds), collect the ids of jobs whose
`created_at` precedes it and whose status is terminal, and delete those
ids from both the job map and the callback map. -/
def JobManager.cleanup_old_jobs (jm : JobManager) (now : Int) (job_ttl_hours : Int) :
    JobManager :=
  let cutoff := now - job_ttl_hours * 3600
  let expired :=
    (jm.jobs.filter (fun p => p.2.created_at < cutoff ∧ isTerminal p.2.status)).map Prod.fst
  { jobs := jm.jobs.filter (fun p => !expired.contains p.1)
    callbacks := jm.callbacks.filter (fun c => !expired.contains c.1) }

/-- Pythonic `x or d` on an optional integer (`last_event_id or -1` in
`event_generator`): `None` and `0` are falsy and give the default. -/
def pyOrInt (o : Option Int) (d : Int) : Int :=
  match o with
  | none => d
  | some v => if v = 0 then d else v

/-- The buffered-replay phase of `event_generator` in
`src/api/routes/stream.py`: `start_from = (last_event_id or -1) + 1`, then
yield every buffered event whose current buffer index `i` satisfies
`i >= start_from`, with `id: i`. -/
def replayEvents (buffer : List Event) (last_event_id : Option Int) :
    List (Int × Event) :=
  let start_from := pyOrInt last_event_id (-1) + 1
  (buffer.enum.filter (fun p => start_from ≤ (p.1 : Int))).map
    (fun p => ((p.1 : Int), p.2))

/-- The closure state of `_run_pipeline_sync` in `src/api/routes/scrape.py`
that `lead_callback` reads and writes. -/
structure CallbackState where
  jm : JobManager
  duplicates_count : Nat := 0
  duplicate_job_ids : List String := []
  saved_place_ids : List String := []
deriving DecidableEq, Repr

/-- `lead_callback` from `_run_pipeline_sync` in
`src/api/routes/scrape.py`: skip resume-skipped place ids, call
`job_manager.add_lead`, record the place id on success, and on rejection
bump the duplicate counter and add any truthy colliding job id to the
`duplicate_job_ids` set. -/
def lead_callback (st : CallbackState) (job_id : String) (lead : FinalLead)
    (resume_skip_place_ids : List String) (dbCheck : DbCheck) :
    CallbackState × Bool :=
  let place_id := lead.place_id
  if resume_skip_place_ids.contains place_id then
    (st, false)
  else
    match st.jm.add_lead job_id lead dbCheck with
    | (jm, was_added, existing_job_id) =>
      if was_added then
        ({ st with jm := jm
                   saved_place_ids := st.saved_place_ids.insert place_id }, true)
      else
        let dup_ids :=
          match existing_job_id with
          | some e => if !e.isEmpty then st.duplicate_job_ids.insert e
                      else st.duplicate_job_ids
          | none => st.duplicate_job_ids
        ({ st with jm := jm
                   duplicates_count := st.duplicates_count + 1
                   duplicate_job_ids := dup_ids }, false)

/-- The admission-control part of `start_scrape` in
`src/api/routes/scrape.py`: after the ban check, consult
`can_start_job` and raise 429 (no `Job` constructed) when it refuses;
otherwise create the job. The fresh uuid is an explicit argument. -/
def start_scrape (jm : JobManager) (user_id query : String) (banned : Bool)
    (new_job_id : String) (now : Int)
    (max_concurrent_jobs max_jobs_per_user : Nat) (max_results : Nat)
    (min_score : Int) : JobManager × Except String String :=
  if banned then (jm, Except.error "Access denied.")
  else if (jm.can_start_job (some user_id) max_concurrent_jobs max_jobs_per_user).1 then
    ((jm.create_job new_job_id query user_id max_results min_score false false none now).1,
     Except.ok (jm.create_job new_job_id query user_id max_results min_score false false
        none now).2.job_id)
  else
    (jm, Except.error
      ((jm.can_start_job (some user_id) max_concurrent_jobs max_jobs_per_user).2.getD ""))

theorem ite_nonneg_q {c : Prop} [Decidable c] {a b : ℚ} (ha : 0 ≤ a) (hb : 0 ≤ b) :
    0 ≤ if c then a else b := by
  split_ifs <;> assumption

theorem score_rating_bounds (lead : EnrichedLead) :
    0 ≤ score_rating lead ∧ score_rating lead ≤ 25 := by
  unfold score_rating
  cases lead.raw.rating with
  | none => norm_num
  | some r =>
    dsimp only
    split_ifs <;> norm_num

theorem score_reviews_bounds (lead : EnrichedLead) :
    0 ≤ score_reviews lead ∧ score_reviews lead ≤ 25 := by
  unfold score_reviews
  split_ifs <;> norm_num

theorem score_completeness_bounds (lead : EnrichedLead) :
    0 ≤ score_completeness lead ∧ score_completeness lead ≤ 25 := by
  unfold score_completeness
  refine ⟨le_min ?_ (by norm_num), min_le_right _ _⟩
  repeat' first
    | apply add_nonneg
    | apply ite_nonneg_q
    | norm_num

theorem score_social_presence_bounds (lead : EnrichedLead) :
    0 ≤ score_social_presence lead ∧ score_social_presence lead ≤ 25 := by
  unfold score_social_presence
  refine ⟨le_min ?_ (by norm_num), min_le_right _ _⟩
  repeat' first
    | apply add_nonneg
    | apply ite_nonneg_q
    | norm_num

theorem score_business_signals_bounds (lead : EnrichedLead) :
    0 ≤ score_business_signals lead ∧ score_business_signals lead ≤ 25 := by
  unfold score_business_signals
  refine ⟨le_min ?_ (by norm_num), min_le_right _ _⟩
  repeat' first
    | apply add_nonneg
    | apply ite_nonneg_q
    | norm_num

theorem LeadScore_tier_iff (s : LeadScore) :
    (s.tier = "hot" ↔ 75 ≤ s.total)
    ∧ (s.tier = "warm" ↔ 50 ≤ s.total ∧ s.total < 75)
    ∧ (s.tier = "cold" ↔ s.total < 50) := by
  have h1 : ("hot" : String) ≠ "warm" := by decide
  have h2 : ("hot" : String) ≠ "cold" := by decide
  have h3 : ("warm" : String) ≠ "hot" := by decide
  have h4 : ("warm" : String) ≠ "cold" := by decide
  have h5 : ("cold" : String) ≠ "hot" := by decide
  have h6 : ("cold" : String) ≠ "warm" := by decide
  unfold LeadScore.tier
  split_ifs with ha hb
  · exact ⟨iff_of_true rfl ha,
      iff_of_false h1 (fun h => absurd ha (not_le.mpr h.2)),
      iff_of_false h2 (by linarith)⟩
  · exact ⟨iff_of_false h3 ha,
      iff_of_true rfl ⟨hb, not_le.mp ha⟩,
      iff_of_false h4 (by linarith)⟩
  · exact ⟨iff_of_false h5 ha,
      iff_of_false h6 (fun h => hb h.1),
      iff_of_true rfl (not_le.mp hb)⟩

/-- C3: for every enriched lead, each of the five score components the
scorer produces lies in [0,25], their sum is at most 125, the exposed
total equals `min(sum * 100 / 125, 100)` and lies in [0,100], and the
tier is `hot` iff total ≥ 75, `warm` iff 50 ≤ total < 75, `cold`
otherwise. -/
theorem score_components_total_tier (lead : EnrichedLead) :
    (0 ≤ (scoreLead lead).rating_score ∧ (scoreLead lead).rating_score ≤ 25)
    ∧ (0 ≤ (scoreLead lead).review_score ∧ (scoreLead lead).review_score ≤ 25)
    ∧ (0 ≤ (scoreLead lead).completeness_score ∧ (scoreLead lead).completeness_score ≤ 25)
    ∧ (0 ≤ (scoreLead lead).social_presence_score ∧ (scoreLead lead).social_presence_score ≤ 25)
    ∧ (0 ≤ (scoreLead lead).business_signals_score ∧ (scoreLead lead).business_signals_score ≤ 25)
    ∧ ((scoreLead lead).rating_score + (scoreLead lead).review_score
        + (scoreLead lead).completeness_score + (scoreLead lead).social_presence_score
        + (scoreLead lead).business_signals_score ≤ 125)
    ∧ ((scoreLead lead).total = min (((scoreLead lead).rating_score
        + (scoreLead lead).review_score + (scoreLead lead).completeness_score
        + (scoreLead lead).social_presence_score
        + (scoreLead lead).business_signals_score) * 100 / 125) 100)
    ∧ (0 ≤ (scoreLead lead).total ∧ (scoreLead lead).total ≤ 100)
    ∧ ((scoreLead lead).tier = "hot" ↔ 75 ≤ (scoreLead lead).total)
    ∧ ((scoreLead lead).tier = "warm" ↔
        50 ≤ (scoreLead lead).total ∧ (scoreLead lead).total < 75)
    ∧ ((scoreLead lead).tier = "cold" ↔ (scoreLead lead).total < 50) := by
  obtain ⟨r0, r25⟩ := score_rating_bounds lead
  obtain ⟨v0, v25⟩ := score_reviews_bounds lead
  obtain ⟨c0, c25⟩ := score_completeness_bounds lead
  obtain ⟨p0, p25⟩ := score_social_presence_bounds lead
  obtain ⟨b0, b25⟩ := score_business_signals_bounds lead
  have hr : (scoreLead lead).rating_score = score_rating lead := rfl
  have hv : (scoreLead lead).review_score = score_reviews lead := rfl
  have hc : (scoreLead lead).completeness_score = score_completeness lead := rfl
  have hp : (scoreLead lead).social_presence_score = score_social_presence lead := rfl
  have hb : (scoreLead lead).business_signals_score = score_business_signals lead := rfl
  obtain ⟨t1, t2, t3⟩ := LeadScore_tier_iff (scoreLead lead)
  have hsum : (scoreLead lead).rating_score + (scoreLead lead).review_score
      + (scoreLead lead).completeness_score + (scoreLead lead).social_presence_score
      + (scoreLead lead).business_signals_score ≤ 125 := by
    rw [hr, hv, hc, hp, hb]; linarith
  have htot : (scoreLead lead).total = min (((scoreLead lead).rating_score
      + (scoreLead lead).review_score + (scoreLead lead).completeness_score
      + (scoreLead lead).social_presence_score
      + (scoreLead lead).business_signals_score) * 100 / 125) 100 := rfl
  have htot0 : 0 ≤ (scoreLead lead).total := by
    rw [htot]
    refine le_min ?_ (by norm_num)
    apply div_nonneg _ (by norm_num)
    apply mul_nonneg _ (by norm_num)
    rw [hr, hv, hc, hp, hb]; linarith
  have htot100 : (scoreLead lead).total ≤ 100 := by
    rw [htot]; exact min_le_right _ _
  exact ⟨⟨by rw [hr]; exact r0, by rw [hr]; exact r25⟩,
    ⟨by rw [hv]; exact v0, by rw [hv]; exact v25⟩,
    ⟨by rw [hc]; exact c0, by rw [hc]; exact c25⟩,
    ⟨by rw [hp]; exact p0, by rw [hp]; exact p25⟩,
    ⟨by rw [hb]; exact b0, by rw [hb]; exact b25⟩,
    hsum, htot, ⟨htot0, htot100⟩, t1, t2, t3⟩

/-- C9: the outreach-only-resume reconstruction assigns every component the
equal value `t * 1.25 / 5`, each within its [0,25] bound for a stored total
`t` in [0,100], and the reconstructed score's recomputed total equals the
stored total exactly. -/
theorem db_score_reconstruct_roundtrip (t : ℚ) (h0 : 0 ≤ t) (h1 : t ≤ 100) :
    (db_score_reconstruct t).rating_score = t * 1.25 / 5
    ∧ (db_score_reconstruct t).review_score = t * 1.25 / 5
    ∧ (db_score_reconstruct t).completeness_score = t * 1.25 / 5
    ∧ (db_score_reconstruct t).social_presence_score = t * 1.25 / 5
    ∧ (db_score_reconstruct t).business_signals_score = t * 1.25 / 5
    ∧ (0 ≤ t * 1.25 / 5 ∧ t * 1.25 / 5 ≤ 25)
    ∧ (db_score_reconstruct t).total = t := by
  refine ⟨rfl, rfl, rfl, rfl, rfl, ⟨by linarith, by linarith⟩, ?_⟩
  unfold db_score_reconstruct LeadScore.total
  dsimp only
  rw [show (t * 1.25 / 5 + t * 1.25 / 5 + t * 1.25 / 5 + t * 1.25 / 5
      + t * 1.25 / 5) * 100 / 125 = t by ring]
  exact min_eq_left h1

/-- Concrete instance of `db_score_reconstruct_roundtrip` at a stored total
of 80. -/
theorem db_score_reconstruct_roundtrip_witness :
    (0 : ℚ) ≤ 80 ∧ (80 : ℚ) ≤ 100 ∧ (db_score_reconstruct 80).total = 80 :=
  ⟨by norm_num, by norm_num,
    (db_score_reconstruct_roundtrip 80 (by norm_num) (by norm_num)).2.2.2.2.2.2⟩

theorem find?_set_assoc (l : List (String × Job)) (id : String) (j' : Job)
    (h : (l.find? (fun p => p.1 = id)).isSome) :
    (l.map (fun p => if p.1 = id then (id, j') else p)).find? (fun p => p.1 = id)
      = some (id, j') := by
  induction l with
  | nil => simp at h
  | cons a l ih =>
    by_cases ha : a.1 = id
    · simp only [List.map_cons, if_pos ha]
      exact List.find?_cons_of_pos _ (by simp)
    · simp only [List.map_cons, if_neg ha]
      rw [List.find?_cons_of_neg _ (by simp [ha])]
      apply ih
      rw [List.find?_cons_of_neg _ (by simp [ha])] at h
      exact h

theorem get_job_set_job {jm : JobManager} {job_id : String} {j : Job} (j' : Job)
    (h : jm.get_job job_id = some j) :
    (jm.set_job job_id j').get_job job_id = some j' := by
  unfold JobManager.get_job at h ⊢
  unfold JobManager.set_job
  dsimp only
  have hs : (jm.jobs.find? (fun p => p.1 = job_id)).isSome := by
    cases hf : jm.jobs.find? (fun p => p.1 = job_id) with
    | none => rw [hf] at h; simp at h
    | some a => simp
  rw [find?_set_assoc _ _ _ hs]
  rfl

theorem add_event_status (j : Job) (e : Event) : (j.add_event e).status = j.status := by
  simp only [Job.add_event]
  split_ifs <;> rfl

theorem add_event_leads (j : Job) (e : Event) : (j.add_event e).leads = j.leads := by
  simp only [Job.add_event]
  split_ifs <;> rfl

/-- C6: `cancel_job` succeeds iff the job exists with status `pending` or
`running`; on success the job becomes `cancelled` with the cancellation
flag set; otherwise the manager state is unchanged. -/
theorem cancel_job_spec (jm : JobManager) (job_id : String) (now : Int) :
    ((jm.cancel_job job_id now).2 = true ↔
      ∃ job, jm.get_job job_id = some job ∧
        (job.status = "pending" ∨ job.status = "running"))
    ∧ (∀ job, jm.get_job job_id = some job →
        (job.status = "pending" ∨ job.status = "running") →
        (jm.cancel_job job_id now).1.get_job job_id =
          some { job with cancel_requested := true, status := "cancelled",
                          completed_at := some now })
    ∧ ((jm.cancel_job job_id now).2 = false → (jm.cancel_job job_id now).1 = jm) := by
  unfold JobManager.cancel_job
  cases hj : jm.get_job job_id with
  | none =>
    dsimp only
    refine ⟨by simp, ?_, fun _ => rfl⟩
    intro job hjob
    cases hjob
  | some job =>
    dsimp only
    by_cases hs : job.status = "pending" ∨ job.status = "running"
    · rw [if_pos hs]
      refine ⟨⟨fun _ => ⟨job, rfl, hs⟩, fun _ => rfl⟩, ?_, ?_⟩
      · intro job2 hj2 _
        injection hj2 with he
        subst he
        exact get_job_set_job _ hj
      · intro hfalse
        cases hfalse
    · rw [if_neg hs]
      refine ⟨?_, ?_, fun _ => rfl⟩
      · constructor
        · intro hfalse
          cases hfalse
        · rintro ⟨job2, hj2, hs2⟩
          injection hj2 with he
          subst he
          exact absurd hs2 hs
      · intro job2 hj2 hs2
        injection hj2 with he
        subst he
        exact absurd hs2 hs

/-- Concrete instance of `cancel_job_spec`: cancelling a pending job
succeeds. -/
def samplePendingJob : Job := { job_id := "j1", query := "q", created_at := 0 }

def samplePendingJM : JobManager := { jobs := [("j1", samplePendingJob)] }

theorem cancel_job_spec_witness :
    (samplePendingJM.cancel_job "j1" 7).2 = true :=
  (cancel_job_spec samplePendingJM "j1" 7).1.mpr
    ⟨samplePendingJob, rfl, Or.inl rfl⟩

theorem running_not_terminal :
    ¬(("running" : String) = "completed" ∨ ("running" : String) = "failed"
      ∨ ("running" : String) = "cancelled") := by
  decide

/-- C7: transitioning to `running` records `started_at` only once — a
second `update_status(job_id, "running")` call leaves `started_at`
exactly as the first call left it. -/
theorem update_status_running_started_at_idempotent (jm : JobManager)
    (job_id : String) (t1 t2 : Int) :
    (((jm.update_status job_id "running" t1).update_status job_id "running" t2).get_job
        job_id).map Job.started_at
      = ((jm.update_status job_id "running" t1).get_job job_id).map Job.started_at := by
  cases hj : jm.get_job job_id with
  | none =>
    have e1 : jm.update_status job_id "running" t1 = jm := by
      unfold JobManager.update_status
      rw [hj]
    rw [e1]
    have e2 : jm.update_status job_id "running" t2 = jm := by
      unfold JobManager.update_status
      rw [hj]
    rw [e2]
  | some job =>
    by_cases hst : job.started_at = none
    · have e1 : jm.update_status job_id "running" t1
          = jm.set_job job_id { job with status := "running", started_at := some t1 } := by
        unfold JobManager.update_status
        rw [hj]
        dsimp only
        rw [if_pos ⟨rfl, hst⟩]
      have g1 : (jm.set_job job_id
            { job with status := "running", started_at := some t1 }).get_job job_id
          = some { job with status := "running", started_at := some t1 } :=
        get_job_set_job _ hj
      have e2 : (jm.update_status job_id "running" t1).update_status job_id "running" t2
          = (jm.update_status job_id "running" t1).set_job job_id
              { job with status := "running", started_at := some t1 } := by
        rw [e1]
        unfold JobManager.update_status
        rw [g1]
        dsimp only
        rw [if_neg (by simp), if_neg running_not_terminal]
      rw [e2, e1]
      rw [get_job_set_job _ g1, g1]
    · have e1 : jm.update_status job_id "running" t1
          = jm.set_job job_id { job with status := "running" } := by
        unfold JobManager.update_status
        rw [hj]
        dsimp only
        rw [if_neg (by simp [hst]), if_neg running_not_terminal]
      have g1 : (jm.set_job job_id { job with status := "running" }).get_job job_id
          = some { job with status := "running" } :=
        get_job_set_job _ hj
      have e2 : (jm.update_status job_id "running" t1).update_status job_id "running" t2
          = (jm.update_status job_id "running" t1).set_job job_id
              { job with status := "running" } := by
        rw [e1]
        unfold JobManager.update_status
        rw [g1]
        dsimp only
        rw [if_neg (by simp [hst]), if_neg running_not_terminal]
      rw [e2, e1]
      rw [get_job_set_job _ g1, g1]

/-- C1 (amended): `update_status` applies any requested status
unconditionally to an existing job — in particular `completed → running`
is possible — and `fail_job` / `complete_job` likewise force `failed` /
`completed` from any current status; only `cancel_job` checks the current
status (it succeeds exactly from `pending` or `running`). -/
theorem update_status_unrestricted (jm : JobManager) (job_id : String)
    (now : Int) (job : Job) (e : String) (summ : JobSummary)
    (h : jm.get_job job_id = some job) :
    ((jm.update_status job_id "running" now).get_job job_id).map Job.status
        = some "running"
    ∧ ((jm.update_status job_id "completed" now).get_job job_id).map Job.status
        = some "completed"
    ∧ ((jm.fail_job job_id e now).get_job job_id).map Job.status = some "failed"
    ∧ ((jm.complete_job job_id summ now).get_job job_id).map Job.status
        = some "completed"
    ∧ ((jm.cancel_job job_id now).2 = true ↔
        job.status = "pending" ∨ job.status = "running") := by
  refine ⟨?_, ?_, ?_, ?_, ?_⟩
  · by_cases hst : job.started_at = none
    · have e1 : jm.update_status job_id "running" now
          = jm.set_job job_id { job with status := "running", started_at := some now } := by
        unfold JobManager.update_status
        rw [h]
        dsimp only
        rw [if_pos ⟨rfl, hst⟩]
      rw [e1, get_job_set_job _ h]
      rfl
    · have e1 : jm.update_status job_id "running" now
          = jm.set_job job_id { job with status := "running" } := by
        unfold JobManager.update_status
        rw [h]
        dsimp only
        rw [if_neg (by simp [hst]), if_neg running_not_terminal]
      rw [e1, get_job_set_job _ h]
      rfl
  · have e1 : jm.update_status job_id "completed" now
        = jm.set_job job_id { job with status := "completed", completed_at := some now } := by
      unfold JobManager.update_status
      rw [h]
      dsimp only
      rw [if_neg (by simp), if_pos (by simp)]
    rw [e1, get_job_set_job _ h]
    rfl
  · have e1 : jm.fail_job job_id e now
        = jm.set_job job_id
            (({ job with
                  status := "failed", completed_at := some now, error := some e } :
                Job).add_event (.error e false)) := by
      unfold JobManager.fail_job
      rw [h]
    rw [e1, get_job_set_job _ h]
    simp [add_event_status]
  · have e1 : jm.complete_job job_id summ now
        = jm.set_job job_id
            (({ job with
                  status := "completed", completed_at := some now, summary := some summ } :
                Job).add_event (.complete summ)) := by
      unfold JobManager.complete_job
      rw [h]
    rw [e1, get_job_set_job _ h]
    simp [add_event_status]
  · unfold JobManager.cancel_job
    rw [h]
    dsimp only
    by_cases hs : job.status = "pending" ∨ job.status = "running"
    · rw [if_pos hs]
      simp [hs]
    · rw [if_neg hs]
      simp [hs]

def sampleCompletedJob : Job :=
  { job_id := "j1", query := "q", status := "completed", created_at := 0 }

def sampleCompletedJM : JobManager := { jobs := [("j1", sampleCompletedJob)] }

/-- C1 counterexample: a job whose status is `completed` is moved to
`running` by `update_status(job_id, "running")` — the illegal
`completed → running` transition is not rejected. -/
theorem completed_to_running_possible :
    (sampleCompletedJM.get_job "j1").map Job.status = some "completed"
    ∧ ((sampleCompletedJM.update_status "j1" "running" 5).get_job "j1").map Job.status
        = some "running" := by
  constructor <;> rfl

/-- Concrete instance of `update_status_unrestricted` on a completed job. -/
theorem update_status_unrestricted_witness :
    ((sampleCompletedJM.update_status "j1" "running" 5).get_job "j1").map Job.status
        = some "running"
    ∧ ((sampleCompletedJM.cancel_job "j1" 5).2 = true ↔
        sampleCompletedJob.status = "pending" ∨ sampleCompletedJob.status = "running") :=
  ⟨(update_status_unrestricted sampleCompletedJM "j1" 5 sampleCompletedJob "x" {} rfl).1,
   (update_status_unrestricted sampleCompletedJM "j1" 5 sampleCompletedJob "x" {} rfl).2.2.2.2⟩

/-- C5 (amended): the TTL sweep removes exactly the terminal jobs whose
*creation* time lies before `now - ttl` (the sweep compares `created_at`,
not the completion time, against the cutoff), dropping their callback
lists as well; jobs in `pending` or `running` status are never removed. -/
theorem cleanup_old_jobs_spec (jm : JobManager) (now ttl : Int)
    (hnd : (jm.jobs.map Prod.fst).Nodup) :
    (∀ p ∈ jm.jobs,
      (p ∈ (jm.cleanup_old_jobs now ttl).jobs ↔
        ¬(p.2.created_at < now - ttl * 3600 ∧ isTerminal p.2.status = true)))
    ∧ (∀ c ∈ jm.callbacks,
      (c ∈ (jm.cleanup_old_jobs now ttl).callbacks ↔
        ∀ p ∈ jm.jobs, p.1 = c.1 →
          ¬(p.2.created_at < now - ttl * 3600 ∧ isTerminal p.2.status = true))) := by
  unfold JobManager.cleanup_old_jobs
  dsimp only
  constructor
  · intro p hp
    rw [List.mem_filter]
    constructor
    · rintro ⟨-, hcon⟩ hpred
      have hmem : p ∈ jm.jobs.filter
          (fun q => decide (q.2.created_at < now - ttl * 3600 ∧ isTerminal q.2.status = true)) :=
        List.mem_filter.mpr ⟨hp, by simpa using hpred⟩
      have hid : p.1 ∈ (jm.jobs.filter
          (fun q => decide (q.2.created_at < now - ttl * 3600 ∧ isTerminal q.2.status = true))).map
            Prod.fst :=
        List.mem_map_of_mem _ hmem
      simp only [List.contains] at hcon
      rw [List.elem_iff.mpr hid] at hcon
      simp at hcon
    · intro hnp
      refine ⟨hp, ?_⟩
      rw [Bool.not_eq_true']
      rw [← Bool.not_eq_true]
      intro hcon
      have hid := List.elem_iff.mp hcon
      obtain ⟨q, hqmem, hq1⟩ := List.mem_map.mp hid
      have hqpred := (List.mem_filter.mp hqmem).2
      have hqjobs := (List.mem_filter.mp hqmem).1
      have : q = p := List.inj_on_of_nodup_map hnd hqjobs hp hq1
      subst this
      exact hnp (by simpa using hqpred)
  · intro c hc
    rw [List.mem_filter]
    constructor
    · rintro ⟨-, hcon⟩ p hp hpc hpred
      have hmem : p ∈ jm.jobs.filter
          (fun q => decide (q.2.created_at < now - ttl * 3600 ∧ isTerminal q.2.status = true)) :=
        List.mem_filter.mpr ⟨hp, by simpa using hpred⟩
      have hid : c.1 ∈ (jm.jobs.filter
          (fun q => decide (q.2.created_at < now - ttl * 3600 ∧ isTerminal q.2.status = true))).map
            Prod.fst := by
        rw [← hpc]
        exact List.mem_map_of_mem _ hmem
      simp only [List.contains] at hcon
      rw [List.elem_iff.mpr hid] at hcon
      simp at hcon
    · intro hall
      refine ⟨hc, ?_⟩
      rw [Bool.not_eq_true']
      rw [← Bool.not_eq_true]
      intro hcon
      have hid := List.elem_iff.mp hcon
      obtain ⟨q, hqmem, hq1⟩ := List.mem_map.mp hid
      have hqpred := (List.mem_filter.mp hqmem).2
      have hqjobs := (List.mem_filter.mp hqmem).1
      exact hall q hqjobs hq1 (by simpa using hqpred)

def sampleTTLJob : Job :=
  { job_id := "j2", query := "q", status := "completed", created_at := 0
    completed_at := some 100000 }

def sampleTTLJM : JobManager :=
  { jobs := [("j2", sampleTTLJob)], callbacks := [("j2", [0])] }

/-- C5 counterexample: a terminal job whose completion is *recent* (its
completion timestamp is not older than the TTL cutoff) but whose creation
is old is nevertheless removed by the sweep, together with its callback
list — the sweep keys on `created_at`, not on completion time. -/
theorem cleanup_removes_recently_completed :
    (sampleTTLJob.completed_at = some 100000
      ∧ ¬((100000 : Int) < 100000 - 24 * 3600))
    ∧ (sampleTTLJM.cleanup_old_jobs 100000 24).jobs = []
    ∧ (sampleTTLJM.cleanup_old_jobs 100000 24).callbacks = [] := by
  exact ⟨⟨rfl, by norm_num⟩, rfl, rfl⟩

/-- Concrete instance of `cleanup_old_jobs_spec`: the old terminal job of
`sampleTTLJM` is removed by the sweep. -/
theorem cleanup_old_jobs_spec_witness :
    ("j2", sampleTTLJob) ∉ (sampleTTLJM.cleanup_old_jobs 100000 24).jobs :=
  fun hm =>
    ((cleanup_old_jobs_spec sampleTTLJM 100000 24 (by decide)).1
      ("j2", sampleTTLJob) (by decide)).mp hm ⟨by decide, by decide⟩

/-- C8: admission control refuses a (non-banned) job-creation request iff
the global `pending`+`running` count has reached the global ceiling or the
requesting user's own `pending`+`running` count has reached the per-user
ceiling; on refusal the manager state is unchanged (no `Job` is
constructed), and otherwise the new pending job is appended. -/
theorem admission_control_spec (jm : JobManager) (uid query new_job_id : String)
    (now : Int) (maxc maxu maxr : Nat) (ms : Int) :
    ((jm.can_start_job (some uid) maxc maxu).1 = false ↔
      (maxc ≤ (jm.jobs.filter (fun p =>
          p.2.status = "pending" ∨ p.2.status = "running")).length
        ∨ maxu ≤ (jm.jobs.filter (fun p =>
          p.2.user_id = uid ∧ (p.2.status = "pending" ∨ p.2.status = "running"))).length))
    ∧ ((jm.can_start_job (some uid) maxc maxu).1 = false →
        (start_scrape jm uid query false new_job_id now maxc maxu maxr ms).1 = jm
        ∧ ∃ e, (start_scrape jm uid query false new_job_id now maxc maxu maxr ms).2
            = Except.error e)
    ∧ ((jm.can_start_job (some uid) maxc maxu).1 = true →
        (start_scrape jm uid query false new_job_id now maxc maxu maxr ms).2
            = Except.ok new_job_id
        ∧ (start_scrape jm uid query false new_job_id now maxc maxu maxr ms).1.jobs
            = jm.jobs ++ [(new_job_id,
                (jm.create_job new_job_id query uid maxr ms false false none now).2)]) := by
  by_cases hg : maxc ≤ (jm.jobs.filter (fun p =>
      p.2.status = "pending" ∨ p.2.status = "running")).length
  · have hfst : (jm.can_start_job (some uid) maxc maxu).1 = false := by
      unfold JobManager.can_start_job
      rw [if_pos hg]
    have hss : (start_scrape jm uid query false new_job_id now maxc maxu maxr ms)
        = (jm, Except.error (((jm.can_start_job (some uid) maxc maxu).2).getD "")) := by
      unfold start_scrape
      rw [if_neg (by simp), hfst, if_neg (by simp)]
    refine ⟨iff_of_true hfst (Or.inl hg), fun _ => ⟨by rw [hss], ⟨_, by rw [hss]⟩⟩, ?_⟩
    intro htrue
    rw [hfst] at htrue
    cases htrue
  · by_cases hu : maxu ≤ (jm.jobs.filter (fun p =>
        p.2.user_id = uid ∧ (p.2.status = "pending" ∨ p.2.status = "running"))).length
    · have hfst : (jm.can_start_job (some uid) maxc maxu).1 = false := by
        unfold JobManager.can_start_job
        rw [if_neg hg]
        dsimp only
        rw [if_pos hu]
      have hss : (start_scrape jm uid query false new_job_id now maxc maxu maxr ms)
          = (jm, Except.error (((jm.can_start_job (some uid) maxc maxu).2).getD "")) := by
        unfold start_scrape
        rw [if_neg (by simp), hfst, if_neg (by simp)]
      refine ⟨iff_of_true hfst (Or.inr hu), fun _ => ⟨by rw [hss], ⟨_, by rw [hss]⟩⟩, ?_⟩
      intro htrue
      rw [hfst] at htrue
      cases htrue
    · have hfst : (jm.can_start_job (some uid) maxc maxu).1 = true := by
        unfold JobManager.can_start_job
        rw [if_neg hg]
        dsimp only
        rw [if_neg hu]
      have hss : (start_scrape jm uid query false new_job_id now maxc maxu maxr ms)
          = ((jm.create_job new_job_id query uid maxr ms false false none now).1,
             Except.ok (jm.create_job new_job_id query uid maxr ms false false
                none now).2.job_id) := by
        unfold start_scrape
        rw [if_neg (by simp), hfst, if_pos rfl]
      refine ⟨iff_of_false (by rw [hfst]; simp)
          (by push_neg; exact ⟨not_le.mp hg, not_le.mp hu⟩),
        ?_, fun _ => ⟨by rw [hss]; rfl, by rw [hss]; rfl⟩⟩
      intro hfalse
      rw [hfst] at hfalse
      cases hfalse

def sampleRunningU1Job : Job :=
  { job_id := "j1", query := "q", status := "running", created_at := 0, user_id := "u1" }

def sampleUserJM : JobManager := { jobs := [("j1", sampleRunningU1Job)] }

/-- Concrete instance of `admission_control_spec`: with a per-user ceiling
of 1 and one running job owned by `u1`, a second request by `u1` is
refused and no job is created. -/
theorem admission_control_spec_witness :
    (sampleUserJM.can_start_job (some "u1") 10 1).1 = false
    ∧ (start_scrape sampleUserJM "u1" "q2" false "j9" 5 10 1 20 0).1 = sampleUserJM :=
  ⟨(admission_control_spec sampleUserJM "u1" "q2" "j9" 5 10 1 20 0).1.mpr
      (Or.inr (by decide)),
   ((admission_control_spec sampleUserJM "u1" "q2" "j9" 5 10 1 20 0).2.1
      ((admission_control_spec sampleUserJM "u1" "q2" "j9" 5 10 1 20 0).1.mpr
        (Or.inr (by decide)))).1⟩

/-- C10: when the durable-store duplicate check raises inside `add_lead`,
the exception is swallowed and the lead is accepted exactly as if no
cross-job duplicate existed: the lead is appended to the job's list, a
`lead` event is emitted, and nothing propagates to the caller. -/
theorem add_lead_db_exception_fail_open (jm : JobManager) (job_id : String)
    (lead : FinalLead) (job : Job)
    (h : jm.get_job job_id = some job)
    (hdup : (!lead.place_id.isEmpty
        && job.leads.any (fun l => l.place_id = lead.place_id)) = false) :
    jm.add_lead job_id lead (some (Except.error ()))
      = jm.add_lead job_id lead (some (Except.ok none))
    ∧ (jm.add_lead job_id lead (some (Except.error ()))).2.1 = true
    ∧ (jm.add_lead job_id lead (some (Except.error ()))).2.2 = none
    ∧ (jm.add_lead job_id lead (some (Except.error ()))).1.get_job job_id
        = some (({ job with leads := job.leads ++ [lead] } : Job).add_event
            (.lead lead)) := by
  have e1 : ∀ dbc : Except Unit (Option String), dbc = Except.error () ∨ dbc = Except.ok none →
      jm.add_lead job_id lead (some dbc)
        = (jm.set_job job_id
            (({ job with leads := job.leads ++ [lead] } : Job).add_event (.lead lead)),
           true, none) := by
    intro dbc hdbc
    unfold JobManager.add_lead
    rw [h]
    dsimp only
    rw [if_neg (by simp [hdup])]
    rcases hdbc with hd | hd <;> rw [hd]
  have ha := e1 (Except.error ()) (Or.inl rfl)
  have hb := e1 (Except.ok none) (Or.inr rfl)
  refine ⟨ha.trans hb.symm, by rw [ha], by rw [ha], ?_⟩
  rw [ha]
  exact get_job_set_job _ h

def sampleRawLead : RawLead := { place_id := "p1", name := "Biz" }

def sampleFinalLead : FinalLead :=
  { scored_lead := { lead := { raw := sampleRawLead }, score := {} } }

/-- Concrete instance of `add_lead_db_exception_fail_open`: a raising
duplicate check still lets the lead in. -/
theorem add_lead_db_exception_fail_open_witness :
    (samplePendingJM.add_lead "j1" sampleFinalLead (some (Except.error ()))).2.1 = true :=
  (add_lead_db_exception_fail_open samplePendingJM "j1" sampleFinalLead
    samplePendingJob rfl (by decide)).2.1

/-- C4 (amended): a same-job duplicate is rejected with the job's lead
list, event buffer and manager state unchanged and no event emitted, but
—because `add_lead` returns `(False, job_id)` with the job's *own* id and
`lead_callback` records every truthy colliding id—the job's own id *is*
added to the duplicate-job-id set (and the duplicate counter is bumped). -/
theorem lead_callback_same_job_duplicate (st : CallbackState) (job_id : String)
    (lead : FinalLead) (resume_skip : List String) (dbCheck : DbCheck) (job : Job)
    (hjob : st.jm.get_job job_id = some job)
    (hskip : resume_skip.contains lead.place_id = false)
    (hpid : lead.place_id ≠ "")
    (hdup : job.leads.any (fun l => l.place_id = lead.place_id) = true)
    (hjid : job_id ≠ "") :
    (lead_callback st job_id lead resume_skip dbCheck).2 = false
    ∧ (lead_callback st job_id lead resume_skip dbCheck).1.jm = st.jm
    ∧ (lead_callback st job_id lead resume_skip dbCheck).1.saved_place_ids
        = st.saved_place_ids
    ∧ (lead_callback st job_id lead resume_skip dbCheck).1.duplicates_count
        = st.duplicates_count + 1
    ∧ (lead_callback st job_id lead resume_skip dbCheck).1.duplicate_job_ids
        = st.duplicate_job_ids.insert job_id := by
  have hal : st.jm.add_lead job_id lead dbCheck = (st.jm, false, some job_id) := by
    unfold JobManager.add_lead
    rw [hjob]
    dsimp only
    rw [if_pos]
    rw [hdup, Bool.and_true, Bool.not_eq_true']
    exact Bool.eq_false_iff.mpr (fun he => hpid ((String.isEmpty_iff _).mp he))
  have hlc : lead_callback st job_id lead resume_skip dbCheck
      = ({ st with duplicates_count := st.duplicates_count + 1
                   duplicate_job_ids := st.duplicate_job_ids.insert job_id }, false) := by
    unfold lead_callback
    rw [if_neg (by rw [hskip]; simp), hal]
    dsimp only
    rw [if_neg (by simp)]
    rw [if_pos]
    rw [Bool.not_eq_true']
    exact Bool.eq_false_iff.mpr (fun he => hjid ((String.isEmpty_iff _).mp he))
  rw [hlc]
  exact ⟨rfl, rfl, rfl, rfl, rfl⟩

def sampleDupJob : Job :=
  { job_id := "j1", query := "q", created_at := 0, leads := [sampleFinalLead] }

def sampleDupSt : CallbackState := { jm := { jobs := [("j1", sampleDupJob)] } }

/-- C4 counterexample: when the per-lead callback sees a lead whose place
id is already in the same job's lead list, the job's own id ends up in the
duplicate-job-id set — contradicting "no colliding job id is added for a
same-job duplicate" (lead list, events and manager state are indeed
unchanged). -/
theorem same_job_duplicate_records_own_job_id :
    (lead_callback sampleDupSt "j1" sampleFinalLead [] none).1.duplicate_job_ids = ["j1"]
    ∧ (lead_callback sampleDupSt "j1" sampleFinalLead [] none).1.jm = sampleDupSt.jm
    ∧ (lead_callback sampleDupSt "j1" sampleFinalLead [] none).2 = false := by
  exact ⟨rfl, rfl, rfl⟩

/-- Concrete instance of `lead_callback_same_job_duplicate`. -/
theorem lead_callback_same_job_duplicate_witness :
    (lead_callback sampleDupSt "j1" sampleFinalLead [] none).1.duplicate_job_ids
      = sampleDupSt.duplicate_job_ids.insert "j1" :=
  (lead_callback_same_job_duplicate sampleDupSt "j1" sampleFinalLead [] none
    sampleDupJob rfl rfl (by decide) (by decide) (by decide)).2.2.2.2

theorem enumFrom_filter_ge {α : Type} (l : List α) (n : Nat) :
    ∀ i, (List.enumFrom i l).filter (fun p => decide (n ≤ p.1))
      = (List.enumFrom i l).drop (n - i) := by
  induction l with
  | nil => intro i; simp
  | cons a l ih =>
    intro i
    rw [List.enumFrom_cons]
    by_cases hni : n ≤ i
    · rw [List.filter_cons_of_pos (by simpa using hni)]
      rw [Nat.sub_eq_zero_of_le hni, List.drop_zero]
      rw [ih (i + 1)]
      rw [Nat.sub_eq_zero_of_le (by omega), List.drop_zero]
    · rw [List.filter_cons_of_neg (by simpa using hni)]
      rw [ih (i + 1)]
      have h1 : n - i = (n - (i + 1)) + 1 := by omega
      rw [h1, List.drop_succ_cons]

/-- C2 (amended): for a last-seen id `k ≥ 1`, the buffered-replay phase
yields exactly the events at *current* buffer positions `> k`, in
position order with strictly increasing ids (no gaps, no duplicates,
within one replay); `k = 0` is falsy in Python and treated like a missing
`Last-Event-ID`; the buffer append keeps at most `max_buffer_size`
(default 100) entries, dropping the oldest past capacity. Because the ids
are current positions, events are renumbered once the buffer truncates
(see the accompanying counterexample). -/
theorem replay_spec (buffer : List Event) (k : Int) (hk : 1 ≤ k) (j : Job) (e : Event) :
    replayEvents buffer (some k)
      = (buffer.enum.drop (k.toNat + 1)).map (fun p => ((p.1 : Int), p.2))
    ∧ List.Pairwise (· < ·) ((replayEvents buffer (some k)).map Prod.fst)
    ∧ replayEvents buffer (some 0) = replayEvents buffer none
    ∧ (j.event_buffer.length < j.max_buffer_size →
        (j.add_event e).event_buffer = j.event_buffer ++ [e])
    ∧ (j.max_buffer_size ≤ j.event_buffer.length →
        (j.add_event e).event_buffer
          = (j.event_buffer ++ [e]).drop (j.event_buffer.length + 1 - j.max_buffer_size)) := by
  have h1 : replayEvents buffer (some k)
      = (buffer.enum.drop (k.toNat + 1)).map (fun p => ((p.1 : Int), p.2)) := by
    unfold replayEvents pyOrInt
    dsimp only
    rw [if_neg (by omega)]
    have hpred : ∀ p ∈ buffer.enum,
        (decide (k + 1 ≤ (p.1 : Int))) = (decide ((k.toNat + 1) ≤ p.1)) := by
      intro p _
      have he : (k + 1 ≤ (p.1 : Int)) ↔ ((k.toNat + 1) ≤ p.1) := by omega
      simp [he]
    rw [List.filter_congr hpred]
    rw [show buffer.enum = buffer.enumFrom 0 from rfl]
    rw [enumFrom_filter_ge]
    norm_num
  refine ⟨h1, ?_, rfl, ?_, ?_⟩
  · rw [h1, List.map_map]
    have h2 : ((Prod.fst ∘ fun p : Nat × Event => ((p.1 : Int), p.2)))
        = ((fun n : Nat => (n : Int)) ∘ Prod.fst) := rfl
    rw [h2, ← List.map_map]
    apply List.Pairwise.map _ (fun a b hab => by exact_mod_cast hab)
    rw [List.map_drop, List.enum_map_fst]
    exact List.Pairwise.sublist (List.drop_sublist _ _) (List.pairwise_lt_range _)
  · intro hlt
    have hc : ¬((j.event_buffer ++ [e]).length > j.max_buffer_size) := by
      rw [List.length_append]
      simp
      omega
    simp only [Job.add_event]
    rw [if_neg hc]
  · intro hge
    have hc : (j.event_buffer ++ [e]).length > j.max_buffer_size := by
      rw [List.length_append]
      simp
      omega
    simp only [Job.add_event]
    rw [if_pos hc]
    rw [List.length_append]
    simp

/-- Concrete instance of `replay_spec`: replaying a one-event buffer from
`last_event_id = 1` yields nothing. -/
theorem replay_spec_witness :
    replayEvents [Event.complete {}] (some 1) = [] := by
  have h := (replay_spec [Event.complete {}] 1 (by norm_num)
    { job_id := "jb", query := "", created_at := 0 } (Event.complete {})).1
  simpa using h

def evN (i : Nat) : Event := Event.status "s" i i none

def bufJob0 : Job := { job_id := "jb", query := "", created_at := 0 }

def jobAfter (n : Nat) : Job :=
  (List.range n).foldl (fun j i => j.add_event (evN i)) bufJob0

set_option maxRecDepth 100000 in
/-- C2 counterexample: after 100 appends event 99 is replayed with id 99,
but after the 101st append the buffer (capped at 100) drops the oldest
entry and every event shifts: event 99 is now replayed with id 98 and id
99 names event 100 — a previously delivered event does not keep its
sequence number once the buffer has truncated. -/
theorem replay_renumbers_after_truncation :
    ((replayEvents (jobAfter 100).event_buffer none).contains ((99 : Int), evN 99) = true)
    ∧ ((replayEvents (jobAfter 101).event_buffer none).contains ((99 : Int), evN 99) = false)
    ∧ ((replayEvents (jobAfter 101).event_buffer none).contains ((98 : Int), evN 99) = true)
    ∧ ((replayEvents (jobAfter 101).event_buffer none).contains ((99 : Int), evN 100) = true) := by
  refine ⟨?_, ?_, ?_, ?_⟩ <;> decide
